import Mathlib

/-!
Shallow embedding of `src/main.py` of pdf-empty-page-remover-streamlit.

The program has three functions:
  * `is_page_blank(page)`: returns False as soon as the page shows text
    (after `.strip()`), annotations (`page.get("/Annots")` truthy), or an
    image XObject among the page's resources; errors raised inside the
    XObject resolution/iteration `try` block are swallowed; otherwise
    returns True.
  * `remove_blank_pages(pdf_bytes)`: parses the bytes, iterates the pages
    in order, skips blank ones (counting them), appends the rest to the
    writer, and returns (output bytes, total pages, removed pages).
  * `run_app()`: rejects an empty upload buffer with a warning before any
    parsing, catches processing errors, and derives kept = total - removed.

Python exceptions are embedded as `Except PdfError`; PDF parsing and
serialization (pypdf's `PdfReader` / `PdfWriter`) are kept abstract: the
parser is a parameter, and the output document is represented by its page
list (serialization preserves the page sequence).
-/

/-- A Python exception value, abstracted to its message. -/
abbrev PdfError := String

/-- Whitespace as Python's default str.strip() sees it (ASCII part:
space, tab, newline, carriage return, vertical tab, form feed). -/
def py_is_space (c : Char) : Bool :=
  c.isWhitespace || c = '\x0B' || c = '\x0C'

/-- Python's str.strip(): drop leading and trailing whitespace. -/
def py_strip (s : String) : String :=
  ⟨((s.data.dropWhile py_is_space).reverse.dropWhile py_is_space).reverse⟩

/-- Decidable equality for embedded fallible results. -/
instance {ε α : Type} [DecidableEq ε] [DecidableEq α] :
    DecidableEq (Except ε α) := fun x y =>
  match x, y with
  | .error a, .error b => decidable_of_iff (a = b) (by simp)
  | .error _, .ok _ => isFalse (fun h => Except.noConfusion h)
  | .ok _, .error _ => isFalse (fun h => Except.noConfusion h)
  | .ok a, .ok b => decidable_of_iff (a = b) (by simp)

/-- One entry of the XObject mapping: `xobject.get("/Subtype")` may itself
raise while the entry is inspected inside the `try` block; on success it
yields the subtype name (or `none` when the key is absent). -/
structure XObjectEntry where
  subtype : Except PdfError (Option String)
deriving Repr, DecidableEq

/-- The value stored under `"/XObject"` in the page resources:
`xobjects.get_object().items()` either raises or yields the entries in
iteration order. -/
structure XObjectRef where
  entries : Except PdfError (List XObjectEntry)
deriving Repr, DecidableEq

/-- The page's `"/Resources"` dictionary. `xobject = none` models an
absent (or falsy empty) `"/XObject"` mapping. -/
structure Resources where
  xobject : Option XObjectRef
deriving Repr, DecidableEq

/-- One parsed page. `extract_text` embeds `page.extract_text()` (which
may raise, and may return `None`, folded to `""` by `or ""` in the code);
`annots` embeds `page.get("/Annots")` (`none` = key absent, `some l` = an
annotation array with `l` entries); `resources` embeds
`page.get("/Resources")` (`none` = absent or falsy). -/
structure Page where
  extract_text : Except PdfError (Option String)
  annots : Except PdfError (Option (List Unit))
  resources : Option Resources
deriving DecidableEq

/-- A parsed document: the ordered page sequence exposed by the reader. -/
structure PdfDocument where
  pages : List Page

/-- Python truthiness of the `page.get("/Annots")` value: `None` and an
empty array are falsy, a non-empty array is truthy. -/
def annots_truthy : Option (List Unit) → Bool
  | none => false
  | some l => !l.isEmpty

/-- The body of the `for _, xobject in ...` loop: scan the entries in
order, returning `true` at the first entry whose subtype equals
`"/Image"`; an entry whose subtype lookup raises propagates the error
(to the surrounding `try`). -/
def scan_xobjects : List XObjectEntry → Except PdfError Bool
  | [] => .ok false
  | e :: rest => do
    let s ← e.subtype
    if s = some "/Image" then .ok true else scan_xobjects rest

/-- The whole `try` block: resolve `xobjects.get_object().items()` and
scan the entries for an image subtype. -/
def try_image_scan (x : XObjectRef) : Except PdfError Bool := do
  let items ← x.entries
  scan_xobjects items

/-- The image half of the classifier after the `try/except`: `true` iff
the scan ran without raising and found an `"/Image"` subtype; a missing
resources dictionary, a missing XObject mapping, and a raised (then
swallowed) error all yield `false`. -/
def image_evidence (page : Page) : Bool :=
  match page.resources with
  | none => false
  | some res =>
    match res.xobject with
    | none => false
    | some x =>
      match try_image_scan x with
      | .ok b => b
      | .error _ => false

/-- The classifier `is_page_blank(page)` from `src/main.py`: text (after
strip) short-circuits, then annotations, then the image-XObject scan whose
errors are swallowed by the bare except/pass; reaching the end returns
True. -/
def is_page_blank (page : Page) : Except PdfError Bool := do
  let t ← page.extract_text
  let text := py_strip (t.getD "")
  if text ≠ "" then
    return false
  let a ← page.annots
  if annots_truthy a then
    return false
  match page.resources with
  | none => return true
  | some res =>
    match res.xobject with
    | none => return true
    | some x =>
      match try_image_scan x with
      | .ok true => return false
      | .ok false => return true
      | .error _ => return true

/-- Predicate: the classifier returned False on the page (the page is
appended to the writer). -/
def keeps (p : Page) : Bool :=
  match is_page_blank p with
  | .ok false => true
  | _ => false

/-- Predicate: the classifier returned True on the page (the page is
skipped and `removed_pages` is incremented). -/
def removes (p : Page) : Bool :=
  match is_page_blank p with
  | .ok true => true
  | _ => false

/-- The `for page in reader.pages` loop of `remove_blank_pages`: returns
the kept pages in order together with the removed count; a classifier
error at some page aborts the loop (the exception propagates). -/
def classify_loop : List Page → Except PdfError (List Page × Nat)
  | [] => .ok ([], 0)
  | p :: ps => do
    let blank ← is_page_blank p
    let (kept, removed) ← classify_loop ps
    if blank then .ok (kept, removed + 1) else .ok (p :: kept, removed)

/-- The body of `remove_blank_pages` after parsing: total page count taken
from the reader, then the filter loop; the serialized output is
represented by the kept page sequence. -/
def remove_blank_pages_doc (doc : PdfDocument) :
    Except PdfError (List Page × Nat × Nat) := do
  let (kept, removed) ← classify_loop doc.pages
  .ok (kept, doc.pages.length, removed)

/-- An abstract `PdfReader`: turns a byte buffer into a parsed document or
raises (malformed / encrypted input). -/
abbrev Parse := List Nat → Except PdfError PdfDocument

/-- The filter `remove_blank_pages(pdf_bytes)` from `src/main.py`, with
pypdf's parser abstracted as a parameter: the reader construction may
raise, then the page loop runs, then the output is serialized (kept
abstract as the page list). -/
def remove_blank_pages (parse : Parse) (pdf_bytes : List Nat) :
    Except PdfError (List Page × Nat × Nat) := do
  let reader ← parse pdf_bytes
  remove_blank_pages_doc reader

/-- Outcome of the processing branch of `run_app` (after upload + click). -/
inductive RunOutcome
  | empty_warning
  | process_error (e : PdfError)
  | success (cleaned : List Page) (total removed kept : Nat)

/-- The processing path of `run_app`: an empty buffer is warned about and
the function returns before any parsing; a raised exception is caught and
shown; on success `kept_pages = total_pages - removed_pages` is derived. -/
def run_app_process (parse : Parse) (pdf_bytes : List Nat) : RunOutcome :=
  if pdf_bytes.isEmpty then
    .empty_warning
  else
    match remove_blank_pages parse pdf_bytes with
    | .error e => .process_error e
    | .ok (cleaned, total, removed) => .success cleaned total removed (total - removed)

/-! ## Concrete example pages (used by witnesses and sanity checks) -/

/-- A page with real text content. -/
def text_page : Page := ⟨.ok (some "hello"), .ok none, none⟩

/-- A page with no text, no annotations, no resources. -/
def empty_page : Page := ⟨.ok (some ""), .ok none, none⟩

/-- A page whose extracted text is whitespace only. -/
def ws_page : Page := ⟨.ok (some "  \n\t"), .ok none, none⟩

/-- A page kept alive only by one annotation. -/
def annot_page : Page := ⟨.ok none, .ok (some [()]), none⟩

/-- A page whose Annots entry is present but an empty array. -/
def empty_annots_page : Page := ⟨.ok (some " "), .ok (some []), none⟩

/-- A page whose only content is an image XObject. -/
def image_page : Page :=
  ⟨.ok none, .ok none, some ⟨some ⟨.ok [⟨.ok (some "/Image")⟩]⟩⟩⟩

/-- A page whose XObject mapping holds only a form. -/
def form_page : Page :=
  ⟨.ok none, .ok none, some ⟨some ⟨.ok [⟨.ok (some "/Form")⟩]⟩⟩⟩

/-- A page whose XObject resolution raises. -/
def scanfail_page : Page :=
  ⟨.ok none, .ok none, some ⟨some ⟨.error "broken xobject"⟩⟩⟩

/-- A page whose text extraction raises. -/
def texterr_page : Page := ⟨.error "extract boom", .ok none, none⟩

/-- A page whose annotation lookup raises. -/
def annoterr_page : Page := ⟨.ok (some ""), .error "annots boom", none⟩

/-! ## Helper lemmas about the classifier and the filter loop -/

/-- Binding on a success value runs the continuation. -/
@[simp] lemma ok_bind {α β : Type} (a : α) (f : α → Except PdfError β) :
    (Except.ok a >>= f : Except PdfError β) = f a := rfl

/-- Binding on a raised error propagates the error. -/
@[simp] lemma error_bind {α β : Type} (e : PdfError)
    (f : α → Except PdfError β) :
    (Except.error e >>= f : Except PdfError β) = .error e := rfl

/-- An element of an ok value is never an error. -/
@[simp] lemma isOk_ok {α : Type} (a : α) :
    (Except.ok a : Except PdfError α).isOk := rfl

/-- Closed form of the classifier: the three signals are consulted in
order, each short-circuiting to False, and the XObject scan outcome is
summarized by `image_evidence`. -/
lemma is_page_blank_eq (te : Except PdfError (Option String))
    (a : Except PdfError (Option (List Unit))) (r : Option Resources) :
    is_page_blank ⟨te, a, r⟩ =
      match te with
      | .error e => .error e
      | .ok t =>
        if py_strip (t.getD "") ≠ "" then .ok false
        else
          match a with
          | .error e => .error e
          | .ok av =>
            if annots_truthy av then .ok false
            else if image_evidence ⟨te, a, r⟩ then .ok false
            else .ok true := by
  cases te with
  | error e => rfl
  | ok t =>
    simp only [is_page_blank, ok_bind]
    by_cases h : py_strip (t.getD "") = "" <;>
      simp only [h, ne_eq, not_true_eq_false, not_false_eq_true, if_true,
        if_false, ite_false, ite_true]
    · cases a with
      | error e => rfl
      | ok av =>
        simp only [ok_bind]
        by_cases h2 : annots_truthy av = true <;>
          simp only [h2, if_true, if_false, pure_bind]
        · rfl
        · cases r with
          | none => rfl
          | some res =>
            obtain ⟨xo⟩ := res
            cases xo with
            | none => rfl
            | some x =>
              cases htry : try_image_scan x with
              | ok b => cases b <;> simp [image_evidence, htry] <;> rfl
              | error e => simp [image_evidence, htry]; rfl
    · rfl

/-- The classifier succeeds whenever text extraction and annotation lookup
succeed: every error arising in the XObject scan is swallowed. -/
lemma is_page_blank_isOk (page : Page) (t : Option String)
    (a : Option (List Unit)) (ht : page.extract_text = .ok t)
    (ha : page.annots = .ok a) : (is_page_blank page).isOk := by
  obtain ⟨te, an, r⟩ := page
  cases ht
  cases ha
  rw [is_page_blank_eq]
  by_cases h : py_strip (t.getD "") = "" <;>
    simp only [h, ne_eq, not_true_eq_false, not_false_eq_true, if_true,
      if_false, ite_false, ite_true]
  · by_cases h2 : annots_truthy a = true <;> simp only [h2, if_true, if_false]
    · rfl
    · by_cases h3 : image_evidence ⟨.ok t, .ok a, r⟩ <;> simp [h3]
  · rfl

/-- On a page whose classifier raises no error, `keeps` and `removes` are
complementary. -/
lemma keeps_eq_not_removes (p : Page) (b : Bool)
    (h : is_page_blank p = .ok b) : keeps p = !b ∧ removes p = b := by
  cases b <;> simp [keeps, removes, h]

/-- When every page classifies without error, the loop returns exactly the
kept pages (a filter of the input) and counts the removed ones. -/
lemma classify_loop_eq_filter (pages : List Page)
    (h : ∀ p ∈ pages, (is_page_blank p).isOk) :
    classify_loop pages = .ok (pages.filter keeps, pages.countP removes) := by
  induction pages with
  | nil => simp [classify_loop]
  | cons p ps ih =>
    have hp : (is_page_blank p).isOk := h p (by simp)
    obtain ⟨b, hb⟩ : ∃ b, is_page_blank p = .ok b := by
      cases hpb : is_page_blank p with
      | ok b => exact ⟨b, rfl⟩
      | error e => rw [hpb] at hp; simp [Except.isOk, Except.toBool] at hp
    have ihe := ih (fun q hq => h q (by simp [hq]))
    obtain ⟨hk, hr⟩ := keeps_eq_not_removes p b hb
    cases b with
    | true =>
      simp only [classify_loop, hb, ihe, ok_bind, if_true]
      simp [List.filter_cons, List.countP_cons, hk, hr]
    | false =>
      simp only [classify_loop, hb, ihe, ok_bind, if_false]
      simp [List.filter_cons, List.countP_cons, hk, hr]

/-- The loop accounts for every page: kept plus removed equals total. -/
lemma classify_loop_length (pages : List Page) (kept : List Page)
    (removed : Nat) (h : classify_loop pages = .ok (kept, removed)) :
    kept.length + removed = pages.length := by
  induction pages generalizing kept removed with
  | nil =>
    simp only [classify_loop, Except.ok.injEq, Prod.mk.injEq] at h
    simp [← h.1, ← h.2]
  | cons p ps ih =>
    cases hb : is_page_blank p with
    | error e => simp [classify_loop, hb] at h
    | ok b =>
      cases hloop : classify_loop ps with
      | error e => simp [classify_loop, hb, hloop] at h
      | ok pr =>
        obtain ⟨k, r⟩ := pr
        have ihe := ih k r hloop
        cases b <;> simp [classify_loop, hb, hloop] at h <;>
          obtain ⟨rfl, rfl⟩ := h <;> simp [List.length_cons] <;> omega

/-- Every page the loop keeps was classified as not blank. -/
lemma classify_loop_kept_not_blank (pages : List Page) (kept : List Page)
    (removed : Nat) (h : classify_loop pages = .ok (kept, removed)) :
    ∀ q ∈ kept, is_page_blank q = .ok false := by
  induction pages generalizing kept removed with
  | nil =>
    simp only [classify_loop, Except.ok.injEq, Prod.mk.injEq] at h
    simp [← h.1]
  | cons p ps ih =>
    cases hb : is_page_blank p with
    | error e => simp [classify_loop, hb] at h
    | ok b =>
      cases hloop : classify_loop ps with
      | error e => simp [classify_loop, hb, hloop] at h
      | ok pr =>
        obtain ⟨k, r⟩ := pr
        have ihe := ih k r hloop
        cases b <;>
          simp only [classify_loop, hb, hloop, ok_bind, if_true, if_false,
            Except.ok.injEq, Prod.mk.injEq] at h
        · obtain ⟨rfl, rfl⟩ := h
          intro q hq
          rcases List.mem_cons.1 hq with rfl | hq
          · exact hb
          · exact ihe q hq
        · obtain ⟨rfl, rfl⟩ := h
          exact ihe

/-- When every page classifies as blank, the loop keeps nothing and counts
them all. -/
lemma classify_loop_all_blank (pages : List Page)
    (h : ∀ p ∈ pages, is_page_blank p = .ok true) :
    classify_loop pages = .ok ([], pages.length) := by
  induction pages with
  | nil => rfl
  | cons p ps ih =>
    have hp := h p (by simp)
    have ihe := ih (fun q hq => h q (by simp [hq]))
    simp [classify_loop, hp, ihe]

/-- When every page classifies as not blank, the loop keeps everything in
order and removes nothing. -/
lemma classify_loop_all_kept (pages : List Page)
    (h : ∀ p ∈ pages, is_page_blank p = .ok false) :
    classify_loop pages = .ok (pages, 0) := by
  induction pages with
  | nil => rfl
  | cons p ps ih =>
    have hp := h p (by simp)
    have ihe := ih (fun q hq => h q (by simp [hq]))
    simp [classify_loop, hp, ihe]

/-- A classifier error at some page aborts the loop with that error, once
the pages before it classified without error. -/
lemma classify_loop_error (pre : List Page) (p : Page) (post : List Page)
    (e : PdfError) (hpre : ∀ q ∈ pre, (is_page_blank q).isOk)
    (hp : is_page_blank p = .error e) :
    classify_loop (pre ++ p :: post) = .error e := by
  induction pre with
  | nil => simp [classify_loop, hp]
  | cons q pre ih =>
    have hq : (is_page_blank q).isOk := hpre q (by simp)
    obtain ⟨b, hb⟩ : ∃ b, is_page_blank q = .ok b := by
      cases hqb : is_page_blank q with
      | ok b => exact ⟨b, rfl⟩
      | error e2 => rw [hqb] at hq; simp [Except.isOk, Except.toBool] at hq
    have ihe := ih (fun q2 hq2 => hpre q2 (by simp [hq2]))
    simp [classify_loop, hb, ihe]

/-- Scanning a resolvable entry list finds an image exactly when some
entry's subtype is the image name. -/
lemma scan_xobjects_map_ok (ss : List (Option String)) :
    scan_xobjects (ss.map fun s => ⟨.ok s⟩) =
      .ok (ss.any fun s => s == some "/Image") := by
  induction ss with
  | nil => rfl
  | cons s ss ih =>
    by_cases h : s = some "/Image" <;>
      simp [scan_xobjects, ih, h]

/-- A demo parser returning a two-page document: one text page, one
whitespace-only page. -/
def demo_parse : Parse := fun _ => .ok ⟨[text_page, ws_page]⟩

/-- A demo parser for the second pass of the idempotence claim. -/
def demo_parse_cleaned : Parse := fun _ => .ok ⟨[text_page]⟩

/-- A demo parser returning a document whose pages are all blank. -/
def demo_parse_all_blank : Parse := fun _ => .ok ⟨[empty_page, ws_page]⟩

/-- A demo parser returning a document whose second page raises during
text extraction. -/
def demo_parse_texterr : Parse := fun _ => .ok ⟨[text_page, texterr_page]⟩

/-- C1: the classifier evaluates its signals in strict order with
short-circuit — non-empty stripped text gives not blank (even when the
later signals would raise), then a truthy annotation value gives not
blank, then an image subtype among the XObject entries gives not blank,
and otherwise (non-image XObjects included) the page is blank; on a
resolvable entry list the image signal holds exactly when some entry's
subtype equals the image name. -/
theorem c1_classifier_strict_order :
    (∀ (te : Except PdfError (Option String))
        (a : Except PdfError (Option (List Unit))) (r : Option Resources),
      is_page_blank ⟨te, a, r⟩ =
        match te with
        | .error e => .error e
        | .ok t =>
          if py_strip (t.getD "") ≠ "" then .ok false
          else
            match a with
            | .error e => .error e
            | .ok av =>
              if annots_truthy av then .ok false
              else if image_evidence ⟨te, a, r⟩ then .ok false
              else .ok true) ∧
    (∀ ss : List (Option String),
      scan_xobjects (ss.map fun s => ⟨.ok s⟩) =
        .ok (ss.any fun s => s == some "/Image")) ∧
    (∀ (te : Except PdfError (Option String))
        (a : Except PdfError (Option (List Unit)))
        (ss : List (Option String)),
      image_evidence ⟨te, a, some ⟨some ⟨.ok (ss.map fun s => ⟨.ok s⟩)⟩⟩⟩ =
        ss.any fun s => s == some "/Image") := by
  refine ⟨is_page_blank_eq, scan_xobjects_map_ok, ?_⟩
  intro te a ss
  simp [image_evidence, try_image_scan, scan_xobjects_map_ok]

/-- C5: a zero-length input buffer is rejected before any parse is
attempted (the outcome is the empty-input warning whatever the parser
would do) and no processing happens. -/
theorem c5_empty_input_rejected :
    ∀ parse : Parse, run_app_process parse [] = .empty_warning :=
  fun _ => rfl

/-- C7: a page whose extracted text strips to the empty string, with no
(truthy) annotations and no image evidence, classifies as blank. -/
theorem c7_whitespace_only_blank (page : Page) (t : Option String)
    (a : Option (List Unit)) (ht : page.extract_text = .ok t)
    (hws : py_strip (t.getD "") = "") (ha : page.annots = .ok a)
    (hna : annots_truthy a = false) (hni : image_evidence page = false) :
    is_page_blank page = .ok true := by
  obtain ⟨te, an, r⟩ := page
  cases ht
  cases ha
  rw [is_page_blank_eq]
  simp only [hws, ne_eq, not_true_eq_false, if_false, ite_false, hna,
    Bool.false_eq_true, hni]

/-- C9: a page whose Annots entry is present but an empty collection is
treated as having no annotations, so with whitespace-only text and no
image evidence it classifies as blank. -/
theorem c9_empty_annots_blank (page : Page) (t : Option String)
    (ht : page.extract_text = .ok t) (hws : py_strip (t.getD "") = "")
    (ha : page.annots = .ok (some [])) (hni : image_evidence page = false) :
    is_page_blank page = .ok true := by
  obtain ⟨te, an, r⟩ := page
  cases ht
  cases ha
  rw [is_page_blank_eq]
  simp only [hws, ne_eq, not_true_eq_false, if_false, ite_false, hni]
  simp [annots_truthy]

/-- Witness for C7 at a concrete whitespace-only page. -/
theorem c7_whitespace_only_blank_witness : is_page_blank ws_page = .ok true :=
  c7_whitespace_only_blank ws_page (some "  \n\t") none rfl (by decide)
    rfl rfl rfl

/-- Witness for C9 at a concrete page with an empty annotation array. -/
theorem c9_empty_annots_blank_witness :
    is_page_blank empty_annots_page = .ok true :=
  c9_empty_annots_blank empty_annots_page (some " ") rfl (by decide) rfl rfl

/-- Inversion of a successful filter run: the parse succeeded, the loop
produced the output pages and count, and the total is the parsed page
count. -/
lemma remove_blank_pages_ok_inv (parse : Parse) (bytes : List Nat)
    (out : List Page) (total removed : Nat)
    (h : remove_blank_pages parse bytes = .ok (out, total, removed)) :
    ∃ doc : PdfDocument, parse bytes = .ok doc ∧
      classify_loop doc.pages = .ok (out, removed) ∧
      total = doc.pages.length := by
  cases hp : parse bytes with
  | error e => simp [remove_blank_pages, hp] at h
  | ok doc =>
    cases hcl : classify_loop doc.pages with
    | error e => simp [remove_blank_pages, remove_blank_pages_doc, hp, hcl] at h
    | ok pr =>
      obtain ⟨k, r⟩ := pr
      simp only [remove_blank_pages, remove_blank_pages_doc, hp, hcl, ok_bind,
        Except.ok.injEq, Prod.mk.injEq] at h
      obtain ⟨rfl, rfl, rfl⟩ := h
      exact ⟨doc, rfl, hcl, rfl⟩

/-- C2: on a parseable document whose pages all classify without error,
the filter returns exactly the non-blank pages as a filter of the input
(so order is preserved and nothing is duplicated), counts the blank ones,
and keeps everything when no page is blank. -/
theorem c2_filter_preserves_order (parse : Parse) (bytes : List Nat)
    (doc : PdfDocument) (hp : parse bytes = .ok doc)
    (hok : ∀ p ∈ doc.pages, (is_page_blank p).isOk) :
    remove_blank_pages parse bytes =
      .ok (doc.pages.filter keeps, doc.pages.length,
        doc.pages.countP removes) ∧
    (doc.pages.filter keeps).Sublist doc.pages ∧
    ((∀ p ∈ doc.pages, keeps p) → doc.pages.filter keeps = doc.pages) := by
  have hcl := classify_loop_eq_filter doc.pages hok
  refine ⟨?_, List.filter_sublist _, fun hall => List.filter_eq_self.2 hall⟩
  simp [remove_blank_pages, hp, remove_blank_pages_doc, hcl]

/-- Witness for C2 on a two-page document with one text page and one
whitespace-only page. -/
theorem c2_filter_preserves_order_witness :
    remove_blank_pages demo_parse [0] =
      .ok (([text_page, ws_page] : List Page).filter keeps,
        ([text_page, ws_page] : List Page).length,
        ([text_page, ws_page] : List Page).countP removes) ∧
    (([text_page, ws_page] : List Page).filter keeps).Sublist
      [text_page, ws_page] ∧
    ((∀ p ∈ ([text_page, ws_page] : List Page), keeps p) →
      ([text_page, ws_page] : List Page).filter keeps =
        [text_page, ws_page]) :=
  c2_filter_preserves_order demo_parse [0] ⟨[text_page, ws_page]⟩ rfl
    (by decide)

/-- C3: on every successful run, removed plus the caller-derived kept
count equals the total, and the output length is the kept count. -/
theorem c3_removed_plus_kept_total (parse : Parse) (bytes : List Nat)
    (out : List Page) (total removed : Nat)
    (h : remove_blank_pages parse bytes = .ok (out, total, removed)) :
    removed ≤ total ∧ removed + (total - removed) = total ∧
    out.length = total - removed := by
  obtain ⟨doc, hp, hcl, rfl⟩ := remove_blank_pages_ok_inv parse bytes out
    total removed h
  have hlen := classify_loop_length doc.pages out removed hcl
  omega

/-- Witness for C3 on the demo document (2 pages, 1 removed). -/
theorem c3_removed_plus_kept_total_witness :
    1 ≤ 2 ∧ 1 + (2 - 1) = 2 ∧ ([text_page] : List Page).length = 2 - 1 :=
  c3_removed_plus_kept_total demo_parse [0] [text_page] 2 1 (by decide)

/-- C4: with text extraction and annotation lookup succeeding, the
classifier never raises (errors inside the XObject scan are swallowed);
when text and annotations are absent, a failing scan is treated as no
image evidence and the page classifies as blank; and the whole filter
succeeds on any parseable document whose pages extract text and look up
annotations without error. -/
theorem c4_xobject_errors_swallowed (page : Page) (t : Option String)
    (a : Option (List Unit)) (ht : page.extract_text = .ok t)
    (ha : page.annots = .ok a) :
    (is_page_blank page).isOk ∧
    (py_strip (t.getD "") = "" → annots_truthy a = false →
      ∀ (x : XObjectRef) (e : PdfError), page.resources = some ⟨some x⟩ →
        try_image_scan x = .error e → is_page_blank page = .ok true) ∧
    (∀ (parse : Parse) (bytes : List Nat) (doc : PdfDocument),
      parse bytes = .ok doc →
      (∀ q ∈ doc.pages, ∃ tq aq,
        q.extract_text = Except.ok tq ∧ q.annots = Except.ok aq) →
      (remove_blank_pages parse bytes).isOk) := by
  refine ⟨is_page_blank_isOk page t a ht ha, ?_, ?_⟩
  · intro hws hna x e hres hscan
    obtain ⟨te, an, r⟩ := page
    cases ht
    cases ha
    simp only at hres
    subst hres
    rw [is_page_blank_eq]
    simp [hws, hna, image_evidence, hscan]
  · intro parse bytes doc hp hall
    have hok : ∀ q ∈ doc.pages, (is_page_blank q).isOk := by
      intro q hq
      obtain ⟨tq, aq, h1, h2⟩ := hall q hq
      exact is_page_blank_isOk q tq aq h1 h2
    have hcl := classify_loop_eq_filter doc.pages hok
    simp [remove_blank_pages, hp, remove_blank_pages_doc, hcl]

/-- Witness for C4 at a page whose XObject resolution raises: the page
still classifies, as blank. -/
theorem c4_xobject_errors_swallowed_witness :
    is_page_blank scanfail_page = .ok true :=
  (c4_xobject_errors_swallowed scanfail_page none none rfl rfl).2.1 rfl rfl
    ⟨.error "broken xobject"⟩ "broken xobject" rfl rfl

/-- C6: when every page of a parseable document classifies as blank, the
output has zero pages and the removed count is the total. -/
theorem c6_all_blank_zero_pages (parse : Parse) (bytes : List Nat)
    (doc : PdfDocument) (hp : parse bytes = .ok doc)
    (hall : ∀ p ∈ doc.pages, is_page_blank p = .ok true) :
    remove_blank_pages parse bytes =
      .ok ([], doc.pages.length, doc.pages.length) := by
  simp [remove_blank_pages, hp, remove_blank_pages_doc,
    classify_loop_all_blank doc.pages hall]

/-- Witness for C6 on a document of two blank pages. -/
theorem c6_all_blank_zero_pages_witness :
    remove_blank_pages demo_parse_all_blank [0] = .ok ([], 2, 2) :=
  c6_all_blank_zero_pages demo_parse_all_blank [0] ⟨[empty_page, ws_page]⟩
    rfl (by decide)

/-- C8: when a second parse yields pages whose classifier results match
those of the first pass's output pages, the second run keeps every page
and removes none. -/
theorem c8_second_pass_removes_none (parse : Parse) (bytes : List Nat)
    (out : List Page) (total removed : Nat)
    (h1 : remove_blank_pages parse bytes = .ok (out, total, removed))
    (parse2 : Parse) (bytes2 : List Nat) (doc2 : PdfDocument)
    (h2 : parse2 bytes2 = .ok doc2)
    (hpres : doc2.pages.map is_page_blank = out.map is_page_blank) :
    remove_blank_pages parse2 bytes2 =
      .ok (doc2.pages, doc2.pages.length, 0) := by
  obtain ⟨doc, hp, hcl, rfl⟩ := remove_blank_pages_ok_inv parse bytes out
    total removed h1
  have hkept := classify_loop_kept_not_blank doc.pages out removed hcl
  have hall : ∀ q ∈ doc2.pages, is_page_blank q = .ok false := by
    intro q hq
    have hmem : is_page_blank q ∈ doc2.pages.map is_page_blank :=
      List.mem_map_of_mem _ hq
    rw [hpres] at hmem
    obtain ⟨o, ho, heq⟩ := List.mem_map.1 hmem
    rw [← heq]
    exact hkept o ho
  simp [remove_blank_pages, h2, remove_blank_pages_doc,
    classify_loop_all_kept doc2.pages hall]

/-- Witness for C8: re-running the filter on the cleaned one-page
document removes nothing. -/
theorem c8_second_pass_removes_none_witness :
    remove_blank_pages demo_parse_cleaned [1] = .ok ([text_page], 1, 0) :=
  c8_second_pass_removes_none demo_parse [0] [text_page] 2 1 (by decide)
    demo_parse_cleaned [1] ⟨[text_page]⟩ rfl rfl

/-- C10: an error raised during text extraction, or during annotation
lookup when the text was blank, is not caught by the classifier; such a
page aborts the whole filter with that error and the app reports a
processing failure with no output. -/
theorem c10_classifier_errors_propagate :
    (∀ (page : Page) (e : PdfError), page.extract_text = .error e →
      is_page_blank page = .error e) ∧
    (∀ (page : Page) (t : Option String) (e : PdfError),
      page.extract_text = .ok t → py_strip (t.getD "") = "" →
      page.annots = .error e → is_page_blank page = .error e) ∧
    (∀ (parse : Parse) (bytes : List Nat) (doc : PdfDocument)
        (pre : List Page) (p : Page) (post : List Page) (e : PdfError),
      parse bytes = .ok doc → doc.pages = pre ++ p :: post →
      (∀ q ∈ pre, (is_page_blank q).isOk) → is_page_blank p = .error e →
      remove_blank_pages parse bytes = .error e ∧
      (bytes.isEmpty = false →
        run_app_process parse bytes = .process_error e)) := by
  refine ⟨?_, ?_, ?_⟩
  · intro page e he
    obtain ⟨te, an, r⟩ := page
    cases he
    rfl
  · intro page t e ht hws ha
    obtain ⟨te, an, r⟩ := page
    cases ht
    cases ha
    rw [is_page_blank_eq]
    simp [hws]
  · intro parse bytes doc pre p post e hp hpages hpre herr
    have hcl : classify_loop doc.pages = .error e := by
      rw [hpages]
      exact classify_loop_error pre p post e hpre herr
    have hrm : remove_blank_pages parse bytes = .error e := by
      simp [remove_blank_pages, hp, remove_blank_pages_doc, hcl]
    exact ⟨hrm, fun hne => by simp [run_app_process, hne, hrm]⟩

/-- Witness for C10: a text-extraction error and an annotation-lookup
error each escape the classifier, and the former aborts the whole run. -/
theorem c10_classifier_errors_propagate_witness :
    is_page_blank texterr_page = .error "extract boom" ∧
    is_page_blank annoterr_page = .error "annots boom" ∧
    run_app_process demo_parse_texterr [1] = .process_error "extract boom" :=
  ⟨c10_classifier_errors_propagate.1 texterr_page "extract boom" rfl,
    c10_classifier_errors_propagate.2.1 annoterr_page (some "")
      "annots boom" rfl (by decide) rfl,
    (c10_classifier_errors_propagate.2.2 demo_parse_texterr [1]
      ⟨[text_page, texterr_page]⟩ [text_page] texterr_page [] "extract boom"
      rfl rfl (by decide) rfl).2 rfl⟩
